import Mathlib

/-!
Shallow embedding of the devr command-line tool (src/devr/venv.py,
src/devr/cli.py, src/devr/config.py) and proofs of the specification
claims about it.

Modelling conventions:
* Filesystem paths are lists of path components (`Path`); an abstract
  filesystem `FS` says which paths exist / are regular files and whether
  the platform is Windows (`os.name == "nt"`).
* Each git subprocess invocation is modelled by its observable outcome
  (`GitOutcome`): the executable was missing (`OSError`), the 10-second
  timeout expired, or the process completed with a return code and a
  stdout already split into lines (`str.splitlines`).
* The Typer side effects of the `check` and `security` commands are
  modelled as a trace of events (`Event`): stage headers plus module
  invocations, plain echoes, and `typer.Exit` codes.  External tool exit
  codes are supplied by an oracle `exitOf : String → List String → Int`.
-/

namespace Devr

/-- Filesystem path, as a list of components of an absolute path. -/
abbrev Path := List String

/-- ASCII whitespace stripped by Python `str.strip()` (space, tab,
newline, carriage return, vertical tab, form feed).  Python additionally
strips Unicode whitespace, which is outside the model. -/
def pyWhitespace (c : Char) : Bool :=
  c = ' ' || c = '\t' || c = '\n' || c = '\r' || c = '\x0B' || c = '\x0C'

/-- Model of Python `str.strip()`: drop whitespace from both ends. -/
def pyStrip (s : String) : String :=
  String.mk (((s.toList.dropWhile pyWhitespace).reverse.dropWhile pyWhitespace).reverse)

/-- Model of Python `str.lower()` (ASCII case folding). -/
def pyLower (s : String) : String :=
  String.mk (s.toList.map Char.toLower)

/-- Model of Python `str.startswith(p)`. -/
def pyStartsWith (s p : String) : Bool :=
  p.toList.isPrefixOf s.toList

/-- Model of Python `str.endswith(p)`. -/
def pyEndsWith (s p : String) : Bool :=
  p.toList.isSuffixOf s.toList

/-- Split a character list at every occurrence of `sep`. -/
def splitChar (sep : Char) : List Char → List (List Char)
  | [] => [[]]
  | c :: cs =>
    let rest := splitChar sep cs
    if c = sep then [] :: rest
    else
      match rest with
      | [] => [[c]]
      | r :: rs => (c :: r) :: rs

/-- Abstract filesystem and platform state backing `Path.exists`,
`Path.is_file` and `os.name`. -/
structure FS where
  isWindows : Bool
  pathExists : Path → Bool
  isFile : Path → Bool

/-- Split a path string into its nonempty components
(`Path("a/b")` → `["a", "b"]`). -/
def parseRel (s : String) : Path :=
  ((splitChar '/' s.toList).map String.mk).filter (fun c => c ≠ "")

/-- Model of `Path.resolve()` normalisation: drop `.` components and make
`..` remove the preceding component (clamped at the root). -/
def normalize (p : Path) : Path :=
  p.foldl (fun acc c => if c = "." then acc else if c = ".." then acc.dropLast else acc ++ [c]) []

/-- Model of `(root / s).resolve()`: when `s` is absolute it replaces
`root`, otherwise it is joined under `root`; the result is normalised. -/
def resolveUnder (root : Path) (s : String) : Path :=
  if pyStartsWith s "/" then normalize (parseRel s) else normalize (root ++ parseRel s)

/-! Embedding of `src/devr/venv.py`. -/

/-- Ambient interpreter state for `venv.py`: the filesystem together with
`sys.prefix` and `sys.base_prefix`. -/
structure VenvEnv where
  fs : FS
  sysPref : Path
  basePref : Path

/-- Embeds `is_inside_venv`: `sys.prefix != sys.base_prefix`. -/
def is_inside_venv (e : VenvEnv) : Bool :=
  decide (e.sysPref ≠ e.basePref)

/-- The platform-preferred interpreter sub-path of `venv_python`
(`Scripts/python.exe` when `os.name == "nt"`, `bin/python` otherwise). -/
def preferredPython (fs : FS) (venv_dir : Path) : Path :=
  if fs.isWindows then venv_dir ++ ["Scripts", "python.exe"]
  else venv_dir ++ ["bin", "python"]

/-- The alternate-convention interpreter sub-path of `venv_python`. -/
def alternatePython (fs : FS) (venv_dir : Path) : Path :=
  if fs.isWindows then venv_dir ++ ["bin", "python"]
  else venv_dir ++ ["Scripts", "python.exe"]

/-- Embeds `venv_python`: platform-preferred interpreter sub-path, falling
back to the alternate convention only when the preferred path is absent
and the alternate is present. -/
def venv_python (fs : FS) (venv_dir : Path) : Path :=
  if fs.pathExists (preferredPython fs venv_dir) || !fs.pathExists (alternatePython fs venv_dir) then
    preferredPython fs venv_dir
  else alternatePython fs venv_dir

/-- Embeds the final loop of `find_venv`: the first of the conventional
names `.venv`, `venv`, `env` under `root` whose interpreter exists. -/
def conventionalHit (e : VenvEnv) (root : Path) : Option Path :=
  [".venv", "venv", "env"].findSome? (fun name =>
    let p := resolveUnder root name
    if e.fs.pathExists (venv_python e.fs p) then some p else none)

/-- Embeds `find_venv`: configured path first, then the active venv (when
the process runs inside one), then the conventional directory names. -/
def find_venv (e : VenvEnv) (root : Path) (configured : Option String) : Option Path :=
  let configuredHit : Option Path :=
    match configured with
    | some c =>
      if c ≠ "" then
        let p := resolveUnder root c
        if e.fs.pathExists (venv_python e.fs p) then some p else none
      else none
    | none => none
  match configuredHit with
  | some p => some p
  | none =>
    let activeHit : Option Path :=
      if is_inside_venv e then
        if e.fs.pathExists (venv_python e.fs e.sysPref) then some e.sysPref else none
      else none
    match activeHit with
    | some p => some p
    | none => conventionalHit e root

/-! Embedding of the git-query layer of `src/devr/cli.py`. -/

/-- Observable outcome of one `subprocess.run(["git", ...], timeout=10)`
call: the executable was missing or another `OSError` occurred, the
timeout expired, or the process completed with a return code and a stdout
modelled as its list of lines. -/
inductive GitOutcome where
  | osError
  | timeoutExpired
  | completed (returncode : Int) (stdoutLines : List String)
deriving DecidableEq

/-- Wall-clock timeout in seconds passed to every git invocation
(`timeout=10` in `_run_git`). -/
def gitTimeoutSeconds : Nat := 10

/-- Embeds `_run_git`: `none` on `OSError`, on `TimeoutExpired` and on a
non-zero return code, else the stdout lines. -/
def run_git : GitOutcome → Option (List String)
  | .osError => none
  | .timeoutExpired => none
  | .completed rc out => if rc ≠ 0 then none else some out

/-- The outcomes of the five git queries the change-set resolver issues
against one project root. -/
structure GitState where
  diffHead : GitOutcome
  diffUnstaged : GitOutcome
  diffCached : GitOutcome
  lsOthers : GitOutcome
  revParse : GitOutcome
deriving DecidableEq

/-- Embeds `_is_git_repo` (the memoising cache is a pure optimisation and
is not modelled): whether `git rev-parse --is-inside-work-tree`
succeeded. -/
def is_git_repo (g : GitState) : Bool :=
  (run_git g.revParse).isSome

/-- Embeds the list comprehension
`[line.strip() for line in lines if line.strip()]`. -/
def cleanLines (lines : List String) : List String :=
  (lines.map pyStrip).filter (fun s => s ≠ "")

/-- Deduplication keeping the first occurrence, with an accumulator of
already-seen entries. -/
def dedupAux (seen : List String) : List String → List String
  | [] => []
  | x :: xs => if x ∈ seen then dedupAux seen xs else x :: dedupAux (x :: seen) xs

/-- Embeds `list(dict.fromkeys(l))`: duplicates removed, first occurrence
kept, order otherwise preserved. -/
def dedupKeepFirst (l : List String) : List String :=
  dedupAux [] l

/-- Embeds `_staged_files`: the cleaned lines of
`git diff --name-only --cached`, or `[]` on failure. -/
def staged_files (g : GitState) : List String :=
  match run_git g.diffCached with
  | none => []
  | some out => cleanLines out

/-- Embeds `_changed_files`: diff against HEAD, falling back to the union
of the unstaged and staged diffs; merged with the untracked files,
stripped, blanks dropped and deduplicated keeping first occurrences. -/
def changed_files (g : GitState) : List String :=
  let trackedLinesOpt : Option (List String) :=
    match run_git g.diffHead with
    | some out => some out
    | none =>
      match run_git g.diffUnstaged, run_git g.diffCached with
      | none, none => none
      | u, s => some (cleanLines (u.getD [] ++ s.getD []))
  match trackedLinesOpt with
  | none => []
  | some trackedLines =>
    if trackedLines.isEmpty && !is_git_repo g then []
    else
      let untrackedLines := (run_git g.lsOthers).getD []
      dedupKeepFirst (cleanLines (trackedLines ++ untrackedLines))

/-! Embedding of the file filters of `src/devr/cli.py`. -/

/-- Embeds `_filter_py`: keep only `.py` and `.pyi` paths. -/
def filter_py (files : List String) : List String :=
  files.filter (fun f => pyEndsWith f ".py" || pyEndsWith f ".pyi")

/-- Resolution step of `_existing_files` for one entry: `Path(file)` if
absolute, else `root / file`, then `resolve()`. -/
def resolveFile (root : Path) (f : String) : Path :=
  let candidate := parseRel f
  normalize (if pyStartsWith f "/" then candidate else root ++ candidate)

/-- Embeds `_existing_files`: keep entries whose resolved path stays under
the resolved root (`relative_to` does not raise) and is a regular file. -/
def existing_files (fs : FS) (root : Path) (files : List String) : List String :=
  files.filter (fun f =>
    let resolved := resolveFile root f
    (normalize root).isPrefixOf resolved && fs.isFile resolved)

/-- Embeds the `changed_candidates` computation of `check`
(`_staged_files(root) if staged else _changed_files(root, cache)`). -/
def scope_candidates (g : GitState) (stagedFlag : Bool) : List String :=
  if stagedFlag then staged_files g else changed_files g

/-- Embeds the scoped file-target computation of `check`:
`_existing_files(root, _filter_py(changed_candidates))`. -/
def scope_files (fs : FS) (root : Path) (g : GitState) (stagedFlag : Bool) : List String :=
  existing_files fs root (filter_py (scope_candidates g stagedFlag))

/-- Embeds the warning condition of `check` lines 401-404: no candidates
at all AND the directory is not a git work tree. -/
def scope_warning (g : GitState) (stagedFlag : Bool) : Bool :=
  (scope_candidates g stagedFlag).isEmpty && !is_git_repo g

/-! Embedding of `src/devr/config.py`. -/

/-- Raw TOML value as seen by the `devr.get(...)` lookups.  A finite TOML
float is represented by its `int()` truncation toward zero (`vfloat`),
the only observation the parsers make of it; the non-finite floats TOML
also admits are `vfloatInf` (`inf`, `+inf`, `-inf`) and `vfloatNan`
(`nan`).  `vother` stands for any value of a type `int()` rejects with
`TypeError` (arrays, tables, datetimes). -/
inductive TomlVal where
  | vstr (s : String)
  | vint (n : Int)
  | vbool (b : Bool)
  | vfloat (truncated : Int)
  | vfloatInf
  | vfloatNan
  | vother
deriving DecidableEq

/-- Embeds `DevrConfig` with its dataclass field defaults. -/
structure DevrConfig where
  venv_path : String := ".venv"
  formatter : String := "ruff"
  typechecker : String := "mypy"
  coverage_min : Int := 85
  coverage_branch : Bool := true
  run_tests : Bool := true
deriving DecidableEq

/-- The all-defaults configuration `DevrConfig()`. -/
def defaultDevrConfig : DevrConfig := {}

/-- Valid digit run for Python `int(s)`: ASCII digits with single
underscores allowed only between two digits. -/
def pyDigitRun : List Char → Bool
  | [] => false
  | [c] => c.isDigit
  | c :: '_' :: rest => c.isDigit && pyDigitRun rest
  | c :: rest => c.isDigit && pyDigitRun rest

/-- Python `int(s)` on a string: after stripping whitespace, an optional
sign then ASCII digits with single underscore separators; `none` models
`ValueError`.  (The non-ASCII decimal digits Python also accepts are
outside the model; the string conjuncts below are therefore stated for
ASCII strings.) -/
def pyIntOfString (s : String) : Option Int :=
  let t := (pyStrip s).toList
  let signAndDigits : Int × List Char :=
    match t with
    | '-' :: rest => (-1, rest)
    | '+' :: rest => (1, rest)
    | _ => (1, t)
  let digits := signAndDigits.2
  if pyDigitRun digits then
    some (signAndDigits.1 *
      Int.ofNat ((digits.filter (fun c => c ≠ '_')).foldl (fun acc c => acc * 10 + (c.toNat - 48)) 0))
  else none

/-- Embeds `_parse_bool`: a bool is taken as-is, recognised truthy/falsy
strings and the ints 0/1 convert, anything else yields the default. -/
def parse_bool (value : Option TomlVal) (default : Bool) : Bool :=
  match value with
  | some (.vbool b) => b
  | some (.vstr s) =>
    let normalized := pyLower (pyStrip s)
    if normalized ∈ ["1", "true", "yes", "on"] then true
    else if normalized ∈ ["0", "false", "no", "off"] then false
    else default
  | some (.vint n) => if n = 0 then false else if n = 1 then true else default
  | _ => default

/-- Bounds enforcement of `_parse_int` (lines 63-67): default when the
parsed value violates an inclusive optional bound, else the value. -/
def boundInt (default : Int) (min_value max_value : Option Int) (parsed : Int) : Int :=
  if min_value.any (fun m => decide (parsed < m)) then default
  else if max_value.any (fun m => decide (m < parsed)) then default
  else parsed

/-- Embeds `_parse_int`'s normal returns: bools yield the default; ints,
finite floats (truncated by `int()`) and numeric strings parse and then
the inclusive bounds are enforced (default on violation); a `nan` float
and non-numeric values raise `ValueError`/`TypeError` inside the `try`
and yield the default.  On `vfloatInf` the real code does not return at
all — `int()` raises `OverflowError`, which the `except` clause misses
(see `parse_int_raises`) — so the `vfloatInf` row here is only the value
the caught-exception path would have produced. -/
def parse_int (value : Option TomlVal) (default : Int)
    (min_value : Option Int) (max_value : Option Int) : Int :=
  match value with
  | some (.vbool _) => default
  | some (.vint n) => boundInt default min_value max_value n
  | some (.vfloat t) => boundInt default min_value max_value t
  | some .vfloatNan => default
  | some .vfloatInf => default
  | some (.vstr s) =>
    match pyIntOfString s with
    | some n => boundInt default min_value max_value n
    | none => default
  | _ => default

/-- Embeds the exception behaviour of `_parse_int` (config.py 58-61):
`int(value)` raises `OverflowError` on an infinite float, and the
`except (TypeError, ValueError)` clause does not catch it, so the
exception escapes the function. -/
def parse_int_raises (value : Option TomlVal) : Bool :=
  match value with
  | some .vfloatInf => true
  | _ => false

/-- Embeds `_parse_choice`: strings are stripped and lowercased and kept
when in the allowed set; everything else yields the default. -/
def parse_choice (value : Option TomlVal) (default : String) (allowed : List String) : String :=
  match value with
  | some (.vstr s) =>
    let normalized := pyLower (pyStrip s)
    if normalized ∈ allowed then normalized else default
  | _ => default

/-- Embeds `_parse_venv_path`: a non-blank string survives (stripped),
everything else yields the default. -/
def parse_venv_path (value : Option TomlVal) (default : String) : String :=
  match value with
  | some (.vstr s) =>
    let normalized := pyStrip s
    if normalized ≠ "" then normalized else default
  | _ => default

/-- The raw `[tool.devr]` table: each field lookup `devr.get(key)` yields
either a TOML value or `none` when the key is absent. -/
structure RawDevr where
  venv_path : Option TomlVal := none
  formatter : Option TomlVal := none
  typechecker : Option TomlVal := none
  coverage_min : Option TomlVal := none
  coverage_branch : Option TomlVal := none
  run_tests : Option TomlVal := none
deriving DecidableEq

/-- Embeds `load_config`.  The argument is `none` when `pyproject.toml`
is absent, fails to parse, or `[tool.devr]` is not a table — all of which
return `DevrConfig()` — and `some` of the raw table otherwise. -/
def load_config (devr : Option RawDevr) : DevrConfig :=
  match devr with
  | none => defaultDevrConfig
  | some d =>
    { venv_path := parse_venv_path d.venv_path defaultDevrConfig.venv_path
      formatter := parse_choice d.formatter defaultDevrConfig.formatter ["ruff", "black"]
      typechecker := parse_choice d.typechecker defaultDevrConfig.typechecker ["mypy", "pyright"]
      coverage_min := parse_int d.coverage_min defaultDevrConfig.coverage_min (some 0) (some 100)
      coverage_branch := parse_bool d.coverage_branch defaultDevrConfig.coverage_branch
      run_tests := parse_bool d.run_tests defaultDevrConfig.run_tests }

/-- Embeds the uncaught-exception behaviour of `load_config`: the only
field parsed through `_parse_int` is the coverage minimum, so
`load_config` raises exactly when that field is an infinite float. -/
def load_config_raises (d : RawDevr) : Bool :=
  parse_int_raises d.coverage_min

/-! Embedding of the `check` and `security` workflows of
`src/devr/cli.py` as event traces. -/

/-- Observable action of a workflow run: a check stage header plus module
invocation (`_run_check_stage`), a bare module invocation
(`_run_with_summary`), a `typer.echo`, or a `typer.Exit` code. -/
inductive Event where
  | stage (name : String) (module : String) (args : List String)
  | run (module : String) (args : List String)
  | echo (msg : String)
  | exited (code : Int)
deriving DecidableEq

/-- Run a list of `(stage name, module, args)` stages in order, stopping
at the first non-zero exit code, which is returned. -/
def seqStages (exitOf : String → List String → Int) :
    List (String × String × List String) → List Event × Option Int
  | [] => ([], none)
  | (n, m, a) :: rest =>
    let c := exitOf m a
    if c ≠ 0 then ([.stage n m a], some c)
    else
      let next := seqStages exitOf rest
      (.stage n m a :: next.1, next.2)

/-- The lint/format stage list of `check` for a recognised formatter
(`none` for an unknown formatter). -/
def lintStages (cfg : DevrConfig) (fixFlag : Bool) (target : List String) :
    Option (List (String × String × List String)) :=
  if cfg.formatter = "ruff" then
    some (if fixFlag then
      [("ruff check --fix", "ruff", ["check", "--fix"] ++ target),
       ("ruff format", "ruff", ["format"] ++ target)]
    else
      [("ruff check", "ruff", ["check"] ++ target),
       ("ruff format --check", "ruff", ["format", "--check"] ++ target)])
  else if cfg.formatter = "black" then
    some [("ruff check", "ruff", ["check"] ++ target),
      (if fixFlag then "black" else "black --check", "black",
        (if fixFlag then ["-q"] else ["-q", "--check"]) ++ target)]
  else none

/-- Embeds `_typecheck_targets`: the whole project unless scoping is
requested, in which case the scoped file list. -/
def typecheck_targets (changed : Bool) (files : List String) : List String :=
  if !changed then ["."] else files

/-- The pytest coverage arguments of `check`, with `--cov-branch`
inserted at index 1 when branch coverage is configured. -/
def covArgsOf (cfg : DevrConfig) : List String :=
  let cov_args := ["--cov=.", "--cov-report=term-missing",
    "--cov-fail-under=" ++ toString cfg.coverage_min]
  if cfg.coverage_branch then cov_args.take 1 ++ ["--cov-branch"] ++ cov_args.drop 1
  else cov_args

/-- Skip notice for the lint/format section when scoping found nothing. -/
def lintSkipMsg : String := "No changed Python files detected; skipping lint/format."

/-- Skip notice for the type-check section when scoping found nothing. -/
def typecheckSkipMsg : String := "No changed Python files detected; skipping type checks."

/-- Embeds the stage sequencing of `check` (cli.py lines 406-543), after
the venv has been resolved and the scoped `files` list computed: the
lint/format section, the type-check section, then tests, each aborting
the run via `typer.Exit` on the first non-zero exit code. -/
def check_core (cfg : DevrConfig) (fixFlag changed fast no_tests : Bool)
    (files : List String) (exitOf : String → List String → Int) : List Event :=
  let target := if changed then files else ["."]
  let lintPart : List Event × Option Int :=
    match lintStages cfg fixFlag target with
    | none =>
      ([.echo ("Unknown formatter: " ++ cfg.formatter ++ " (expected ruff or black)")], some 2)
    | some stages =>
      if target.isEmpty then ([.echo lintSkipMsg], none)
      else seqStages exitOf stages
  match lintPart.2 with
  | some c => lintPart.1 ++ [.exited c]
  | none =>
    let tcTarget := typecheck_targets changed files
    let tcPart : List Event × Option Int :=
      if tcTarget.isEmpty then ([.echo typecheckSkipMsg], none)
      else if cfg.typechecker = "mypy" then
        let c := exitOf "mypy" tcTarget
        ([.stage "mypy" "mypy" tcTarget], if c ≠ 0 then some c else none)
      else if cfg.typechecker = "pyright" then
        let c := exitOf "pyright" tcTarget
        ([.stage "pyright" "pyright" tcTarget], if c ≠ 0 then some c else none)
      else
        ([.echo ("Unknown typechecker: " ++ cfg.typechecker ++ " (expected mypy or pyright)")],
          some 2)
    match tcPart.2 with
    | some c => lintPart.1 ++ tcPart.1 ++ [.exited c]
    | none =>
      let testPart : List Event × Option Int :=
        if cfg.run_tests && !fast && !no_tests then
          let cov_args := covArgsOf cfg
          let c := exitOf "pytest" cov_args
          ([.stage "pytest" "pytest" cov_args], if c ≠ 0 then some c else none)
        else if no_tests then ([.echo "Skipping tests (--no-tests)."], none)
        else if fast then ([.echo "Skipping tests (--fast)."], none)
        else ([], none)
      match testPart.2 with
      | some c => lintPart.1 ++ tcPart.1 ++ testPart.1 ++ [.exited c]
      | none => lintPart.1 ++ tcPart.1 ++ testPart.1 ++ [.echo "✅ devr check passed"]

/-- Embeds the `security` command (cli.py lines 587-613), after the venv
has been resolved; `excludes` is the comma-separated `_bandit_excludes`
string and `codeOf` the exit-code oracle for the two tools. -/
def security_run (fail_fast : Bool) (excludes : String)
    (codeOf : String → List String → Int) : List Event :=
  let pip_audit_code := codeOf "pip_audit" []
  let ev1 := Event.run "pip_audit" []
  if pip_audit_code ≠ 0 ∧ fail_fast then
    [ev1, .echo "Security checks failed: pip-audit", .exited 1]
  else
    let banditArgs := ["-r", ".", "-x", excludes]
    let bandit_code := codeOf "bandit" banditArgs
    let ev2 := Event.run "bandit" banditArgs
    if bandit_code ≠ 0 ∧ fail_fast then
      [ev1, ev2, .echo "Security checks failed: bandit", .exited 1]
    else
      let failed_checks :=
        (if pip_audit_code ≠ 0 then ["pip-audit"] else []) ++
        (if bandit_code ≠ 0 then ["bandit"] else [])
      if failed_checks.isEmpty then [ev1, ev2, .echo "✅ devr security passed"]
      else
        [ev1, ev2,
         .echo ("Security checks failed: " ++ String.intercalate ", " failed_checks),
         .exited 1]

/-! Concrete states used to instantiate the claim theorems. -/

/-- Git state of a repository whose HEAD diff reports `a.py` twice and
`sub/b.py`, with one untracked file `new.py`. -/
def C1g : GitState :=
  ⟨.completed 0 ["a.py", "a.py", "sub/b.py"], .osError, .osError,
   .completed 0 ["new.py"], .completed 0 ["true"]⟩

/-- Git state of a repository with no commits yet: the HEAD diff fails,
the plain and staged diffs report overlapping files. -/
def C2fbg : GitState :=
  ⟨.osError, .completed 0 ["m.py"], .completed 0 ["m.py", "s.py"],
   .completed 0 [], .completed 0 ["true"]⟩

/-- Git state of a directory that is not under version control: the HEAD
diff happens to succeed with no output, everything else fails. -/
def C2norepog : GitState :=
  ⟨.completed 0 [], .osError, .osError, .osError, .osError⟩

/-- Git state whose queries all fail with a missing executable. -/
def C3g : GitState :=
  ⟨.osError, .osError, .osError, .osError, .osError⟩

/-- Filesystem on which every path exists. -/
def C4fs : FS := ⟨false, fun _ => true, fun _ => true⟩

/-- Interpreter environment over `C4fs` that is not inside a venv. -/
def C4env : VenvEnv := ⟨C4fs, ["usr"], ["usr"]⟩

/-- POSIX filesystem where only `v/Scripts/python.exe` exists. -/
def C5fs : FS :=
  ⟨false, fun p => decide (p = ["v", "Scripts", "python.exe"]), fun _ => false⟩

/-- Filesystem where only the regular file `r/keep.py` exists. -/
def C6fs : FS :=
  ⟨false, fun p => decide (p = ["r", "keep.py"]), fun p => decide (p = ["r", "keep.py"])⟩

/-- Raw config table whose formatter, typechecker and coverage minimum
are all outside their recognised domains. -/
def C9raw : RawDevr :=
  { formatter := some (.vstr "gofmt"), typechecker := some (.vstr "flow"),
    coverage_min := some (.vint 250) }

/-- Raw config table setting the coverage minimum to the TOML float
`inf`. -/
def C9infRaw : RawDevr := { coverage_min := some .vfloatInf }

/-- Raw config table selecting the recognised choices with surrounding
whitespace and mixed case. -/
def C10raw : RawDevr :=
  { formatter := some (.vstr " Black "), typechecker := some (.vstr "MyPy") }

/-! Helper lemmas about first-occurrence deduplication. -/

theorem dedupAux_sublist (l : List String) : ∀ seen, (dedupAux seen l).Sublist l := by
  induction l with
  | nil => intro seen; simp [dedupAux]
  | cons y ys ih =>
    intro seen
    by_cases h : y ∈ seen
    · simp only [dedupAux, if_pos h]
      exact (ih seen).cons y
    · simp only [dedupAux, if_neg h]
      exact (ih (y :: seen)).cons₂ y

theorem mem_dedupAux (x : String) (l : List String) :
    ∀ seen, x ∈ dedupAux seen l ↔ x ∈ l ∧ x ∉ seen := by
  induction l with
  | nil => intro seen; simp [dedupAux]
  | cons y ys ih =>
    intro seen
    by_cases hxy : x = y
    · subst hxy
      by_cases h : x ∈ seen
      · simp only [dedupAux, if_pos h]
        rw [ih seen]
        simp [h]
      · simp [dedupAux, if_neg h, h]
    · by_cases h : y ∈ seen <;> simp [dedupAux, h, ih, List.mem_cons, hxy]

theorem dedupAux_nodup (l : List String) : ∀ seen, (dedupAux seen l).Nodup := by
  induction l with
  | nil => intro seen; simp [dedupAux]
  | cons y ys ih =>
    intro seen
    by_cases h : y ∈ seen
    · simpa only [dedupAux, if_pos h] using ih seen
    · simp only [dedupAux, if_neg h]
      refine List.nodup_cons.mpr ⟨fun hy => ?_, ih (y :: seen)⟩
      exact ((mem_dedupAux y ys (y :: seen)).mp hy).2 (List.mem_cons_self y seen)

theorem dedupKeepFirst_sublist (l : List String) : (dedupKeepFirst l).Sublist l :=
  dedupAux_sublist l []

theorem mem_dedupKeepFirst (x : String) (l : List String) :
    x ∈ dedupKeepFirst l ↔ x ∈ l := by
  simpa [dedupKeepFirst] using mem_dedupAux x l []

theorem dedupKeepFirst_nodup (l : List String) : (dedupKeepFirst l).Nodup :=
  dedupAux_nodup l []

/-- Claim C1: `changed_files` merges the tracked-changed lines with the
untracked lines (tracked first), strips surrounding whitespace, drops
blank entries and removes duplicates keeping only the first occurrence;
the output is a duplicate-free, order-preserving sub-sequence of the
merged cleaned query results. -/
theorem changed_files_merge_dedup (g : GitState) (t u : List String)
    (ht : run_git g.diffHead = some t) (hu : run_git g.lsOthers = some u)
    (hrepo : is_git_repo g = true) :
    changed_files g = dedupKeepFirst (cleanLines (t ++ u)) ∧
    (changed_files g).Nodup ∧
    (changed_files g).Sublist (cleanLines (t ++ u)) ∧
    (∀ x, x ∈ changed_files g ↔ x ∈ cleanLines (t ++ u)) := by
  have hmain : changed_files g = dedupKeepFirst (cleanLines (t ++ u)) := by
    simp [changed_files, ht, hu, hrepo]
  refine ⟨hmain, ?_, ?_, ?_⟩
  · rw [hmain]; exact dedupKeepFirst_nodup _
  · rw [hmain]; exact dedupKeepFirst_sublist _
  · intro x; rw [hmain]; exact mem_dedupKeepFirst x _

/-- Witness for C1 at the spec's example: tracked `[a.py, a.py, sub/b.py]`
plus untracked `[new.py]` yields `[a.py, sub/b.py, new.py]`. -/
theorem changed_files_merge_dedup_witness :
    changed_files C1g = ["a.py", "sub/b.py", "new.py"] ∧ (changed_files C1g).Nodup := by
  have h := changed_files_merge_dedup C1g ["a.py", "a.py", "sub/b.py"] ["new.py"] rfl rfl rfl
  exact ⟨h.1.trans (by decide), h.2.1⟩

/-- Claim C2: when the HEAD diff fails structurally, `changed_files`
unions whatever the plain diff and the staged diff return; when all three
queries fail it returns `[]`; when the tracked side produced nothing and
the directory is not a git work tree it returns `[]` and the caller-side
warning condition holds — and that warning never fires inside an actual
work tree, distinguishing the undetermined case from a true-empty one. -/
theorem changed_files_fallback_and_warning (g : GitState) :
    (run_git g.diffHead = none → is_git_repo g = true →
      (run_git g.diffUnstaged ≠ none ∨ run_git g.diffCached ≠ none) →
      changed_files g =
        dedupKeepFirst (cleanLines
          (cleanLines ((run_git g.diffUnstaged).getD [] ++ (run_git g.diffCached).getD []) ++
            (run_git g.lsOthers).getD []))) ∧
    (run_git g.diffHead = none → run_git g.diffUnstaged = none →
      run_git g.diffCached = none → changed_files g = []) ∧
    (run_git g.diffHead = some [] → is_git_repo g = false →
      changed_files g = [] ∧ scope_warning g false = true) ∧
    (is_git_repo g = true → scope_warning g false = false ∧ scope_warning g true = false) := by
  refine ⟨?_, ?_, ?_, ?_⟩
  · intro hhead hrepo hor
    cases hu : run_git g.diffUnstaged with
    | none =>
      cases hs : run_git g.diffCached with
      | none => rw [hu] at hor; rw [hs] at hor; simp at hor
      | some s => simp [changed_files, hhead, hu, hs, hrepo]
    | some u => cases hs : run_git g.diffCached <;> simp [changed_files, hhead, hu, hs, hrepo]
  · intro hhead hu hs
    simp [changed_files, hhead, hu, hs]
  · intro hhead hrepo
    have hempty : changed_files g = [] := by simp [changed_files, hhead, hrepo]
    exact ⟨hempty, by simp [scope_warning, scope_candidates, hempty, hrepo]⟩
  · intro hrepo
    constructor <;> simp [scope_warning, hrepo]

/-- Witness for C2: a repository with no commits unions its plain and
staged diffs; a directory not under version control yields `[]` together
with the caller warning. -/
theorem changed_files_fallback_and_warning_witness :
    changed_files C2fbg = ["m.py", "s.py"] ∧
    changed_files C2norepog = [] ∧ scope_warning C2norepog false = true := by
  have h1 := (changed_files_fallback_and_warning C2fbg).1 rfl rfl (Or.inl (by decide))
  have h2 := (changed_files_fallback_and_warning C2norepog).2.2.1 rfl rfl
  exact ⟨h1.trans (by decide), h2.1, h2.2⟩

/-- Claim C3: every git invocation carries the 10-second timeout, and a
missing executable, a timeout expiry and a non-zero exit code are all
ordinary failures mapped to `none` (no exception in the model, which is
total); in particular `staged_files` returns `[]` whenever its query
fails. -/
theorem run_git_failure_is_none :
    gitTimeoutSeconds = 10 ∧
    run_git .osError = none ∧
    run_git .timeoutExpired = none ∧
    (∀ (rc : Int) (out : List String), rc ≠ 0 → run_git (.completed rc out) = none) ∧
    (∀ g : GitState, run_git g.diffCached = none → staged_files g = []) := by
  refine ⟨rfl, rfl, rfl, fun rc out h => ?_, fun g h => ?_⟩
  · simp [run_git, h]
  · simp [staged_files, h]

/-- Witness for C3: a non-zero exit maps to `none`, and `staged_files` of
a state whose git executable is missing is empty. -/
theorem run_git_failure_is_none_witness :
    run_git (.completed 1 ["x"]) = none ∧ staged_files C3g = [] :=
  ⟨run_git_failure_is_none.2.2.2.1 1 ["x"] (by decide),
   run_git_failure_is_none.2.2.2.2 C3g rfl⟩

/-- Claim C4: `find_venv` returns the first match in the fixed priority
order — configured path (when non-empty and its interpreter exists), then
the active isolated environment (effective prefix differing from the base
prefix, interpreter present), then the first conventional name `.venv`,
`venv`, `env` under root whose interpreter exists — and `none` otherwise.
Being a pure function of its arguments, it has no side effects and
repeated calls agree. -/
theorem find_venv_priority (e : VenvEnv) (root : Path) (configured : Option String) :
    (∀ c, configured = some c → c ≠ "" →
      e.fs.pathExists (venv_python e.fs (resolveUnder root c)) = true →
      find_venv e root configured = some (resolveUnder root c)) ∧
    ((configured = none ∨ ∃ c, configured = some c ∧
        (c = "" ∨ e.fs.pathExists (venv_python e.fs (resolveUnder root c)) = false)) →
      (is_inside_venv e = true →
        e.fs.pathExists (venv_python e.fs e.sysPref) = true →
        find_venv e root configured = some e.sysPref) ∧
      ((is_inside_venv e = false ∨ e.fs.pathExists (venv_python e.fs e.sysPref) = false) →
        find_venv e root configured = conventionalHit e root)) ∧
    (conventionalHit e root =
      ([".venv", "venv", "env"].map (fun n => resolveUnder root n)).find?
        (fun p => e.fs.pathExists (venv_python e.fs p))) := by
  refine ⟨?_, ?_, ?_⟩
  · rintro c rfl hne hex
    simp [find_venv, hne, hex]
  · intro hmiss
    constructor
    · intro hin hex
      rcases hmiss with rfl | ⟨c, rfl, hc | hc⟩
      · simp [find_venv, hin, hex]
      · subst hc
        simp [find_venv, hin, hex]
      · simp [find_venv, hin, hex, hc]
    · intro halt
      rcases hmiss with rfl | ⟨c, rfl, hc | hc⟩
      · rcases halt with h | h
        · simp [find_venv, h]
        · cases hin : is_inside_venv e <;> simp [find_venv, hin, h]
      · subst hc
        rcases halt with h | h
        · simp [find_venv, h]
        · cases hin : is_inside_venv e <;> simp [find_venv, hin, h]
      · rcases halt with h | h
        · simp [find_venv, h, hc]
        · cases hin : is_inside_venv e <;> simp [find_venv, hin, h, hc]
  · cases h1 : e.fs.pathExists (venv_python e.fs (resolveUnder root ".venv")) <;>
    cases h2 : e.fs.pathExists (venv_python e.fs (resolveUnder root "venv")) <;>
    cases h3 : e.fs.pathExists (venv_python e.fs (resolveUnder root "env")) <;>
      simp [conventionalHit, List.findSome?, List.find?, h1, h2, h3]

/-- Witness for C4: with the configured path `.venv` and a filesystem on
which every interpreter exists, the configured path wins. -/
theorem find_venv_priority_witness :
    find_venv C4env ["proj"] (some ".venv") = some (resolveUnder ["proj"] ".venv") :=
  (find_venv_priority C4env ["proj"] (some ".venv")).1 ".venv" rfl (by decide) rfl

/-- Claim C5: `venv_python` returns the platform-preferred interpreter
sub-path (`Scripts/python.exe` on Windows, `bin/python` on POSIX); the
alternate convention is returned only when the preferred path is absent
and the alternate present; when neither exists the preferred path is
returned even though absent. -/
theorem venv_python_platform (fs : FS) (d : Path) :
    preferredPython fs d =
      (if fs.isWindows then d ++ ["Scripts", "python.exe"] else d ++ ["bin", "python"]) ∧
    (fs.pathExists (preferredPython fs d) = true →
      venv_python fs d = preferredPython fs d) ∧
    (fs.pathExists (preferredPython fs d) = false →
      fs.pathExists (alternatePython fs d) = true →
      venv_python fs d = alternatePython fs d) ∧
    (fs.pathExists (preferredPython fs d) = false →
      fs.pathExists (alternatePython fs d) = false →
      venv_python fs d = preferredPython fs d) := by
  refine ⟨rfl, ?_, ?_, ?_⟩
  · intro h; simp [venv_python, h]
  · intro h1 h2; simp [venv_python, h1, h2]
  · intro h1 h2; simp [venv_python, h1, h2]

/-- Witness for C5: on a POSIX filesystem where only `v/Scripts/python.exe`
exists, `venv_python` falls back to the alternate convention. -/
theorem venv_python_platform_witness :
    venv_python C5fs ["v"] = alternatePython C5fs ["v"] :=
  (venv_python_platform C5fs ["v"]).2.2.1 (by decide) (by decide)

/-- Claim C6: `existing_files` keeps exactly the entries whose resolution
relative to root (or as-is when absolute) stays inside the resolved root
and names an existing regular file; entries resolving outside root are
rejected, and the output is an order-preserving sub-sequence of the
input. -/
theorem existing_files_spec (fs : FS) (root : Path) (files : List String) :
    (existing_files fs root files).Sublist files ∧
    (∀ f, f ∈ existing_files fs root files ↔
      f ∈ files ∧ (normalize root).isPrefixOf (resolveFile root f) = true ∧
        fs.isFile (resolveFile root f) = true) := by
  constructor
  · exact List.filter_sublist files
  · intro f
    simp [existing_files, List.mem_filter, Bool.and_eq_true, and_assoc]

/-- Witness for C6 at the spec's example: of `["keep.py", "gone.py"]`
only `keep.py` exists on disk, so exactly `["keep.py"]` survives. -/
theorem existing_files_spec_witness :
    (existing_files C6fs ["r"] ["keep.py", "gone.py"]).Sublist ["keep.py", "gone.py"] ∧
    existing_files C6fs ["r"] ["keep.py", "gone.py"] = ["keep.py"] :=
  ⟨(existing_files_spec C6fs ["r"] ["keep.py", "gone.py"]).1, by decide⟩

/-- Claim C7: in a scoped `check` run whose computed file-target list is
empty, the lint/format section and the type-check section are skipped
with visible notices and no tool stage, while the test stage (tests
enabled, neither `--fast` nor `--no-tests`) still runs pytest against the
whole project with only the coverage arguments. -/
theorem check_scoped_empty_targets (cfg : DevrConfig) (fixFlag : Bool)
    (exitOf : String → List String → Int)
    (hf : cfg.formatter = "ruff" ∨ cfg.formatter = "black")
    (hrun : cfg.run_tests = true) :
    check_core cfg fixFlag true false false [] exitOf =
      [Event.echo lintSkipMsg, Event.echo typecheckSkipMsg,
       Event.stage "pytest" "pytest" (covArgsOf cfg)] ++
      (if exitOf "pytest" (covArgsOf cfg) = 0 then [Event.echo "✅ devr check passed"]
       else [Event.exited (exitOf "pytest" (covArgsOf cfg))]) := by
  by_cases hc : exitOf "pytest" (covArgsOf cfg) = 0 <;>
    rcases hf with h | h <;>
      simp [check_core, lintStages, typecheck_targets, h, hrun, hc]

/-- Witness for C7: the default configuration with every tool succeeding
skips lint/format and type checks and runs pytest. -/
theorem check_scoped_empty_targets_witness :
    check_core defaultDevrConfig false true false false [] (fun _ _ => 0) =
      [Event.echo lintSkipMsg, Event.echo typecheckSkipMsg,
       Event.stage "pytest" "pytest" (covArgsOf defaultDevrConfig)] ++
      (if (fun _ _ => (0 : Int)) "pytest" (covArgsOf defaultDevrConfig) = 0 then
        [Event.echo "✅ devr check passed"]
       else [Event.exited ((fun _ _ => (0 : Int)) "pytest" (covArgsOf defaultDevrConfig))]) :=
  check_scoped_empty_targets defaultDevrConfig false (fun _ _ => 0) (Or.inl rfl) rfl

/-- Claim C8: without fail-fast the security workflow runs both
`pip_audit` and `bandit` regardless of individual failures, and whenever
any stage failed — both, only the first, or only the second — it reports
the names of exactly the failed stages and exits with status 1 (and
passes when none failed); with fail-fast it exits with status 1
immediately after the first failing stage, not invoking the second. -/
theorem security_aggregate_and_fail_fast (excludes : String)
    (codeOf : String → List String → Int) :
    (Event.run "pip_audit" [] ∈ security_run false excludes codeOf ∧
     Event.run "bandit" ["-r", ".", "-x", excludes] ∈ security_run false excludes codeOf) ∧
    (codeOf "pip_audit" [] ≠ 0 → codeOf "bandit" ["-r", ".", "-x", excludes] ≠ 0 →
      security_run false excludes codeOf =
        [Event.run "pip_audit" [], Event.run "bandit" ["-r", ".", "-x", excludes],
         Event.echo "Security checks failed: pip-audit, bandit", Event.exited 1]) ∧
    (codeOf "pip_audit" [] ≠ 0 →
      security_run true excludes codeOf =
        [Event.run "pip_audit" [], Event.echo "Security checks failed: pip-audit",
         Event.exited 1]) ∧
    (codeOf "pip_audit" [] = 0 → codeOf "bandit" ["-r", ".", "-x", excludes] ≠ 0 →
      security_run true excludes codeOf =
        [Event.run "pip_audit" [], Event.run "bandit" ["-r", ".", "-x", excludes],
         Event.echo "Security checks failed: bandit", Event.exited 1]) ∧
    (codeOf "pip_audit" [] ≠ 0 → codeOf "bandit" ["-r", ".", "-x", excludes] = 0 →
      security_run false excludes codeOf =
        [Event.run "pip_audit" [], Event.run "bandit" ["-r", ".", "-x", excludes],
         Event.echo "Security checks failed: pip-audit", Event.exited 1]) ∧
    (codeOf "pip_audit" [] = 0 → codeOf "bandit" ["-r", ".", "-x", excludes] ≠ 0 →
      security_run false excludes codeOf =
        [Event.run "pip_audit" [], Event.run "bandit" ["-r", ".", "-x", excludes],
         Event.echo "Security checks failed: bandit", Event.exited 1]) ∧
    (codeOf "pip_audit" [] = 0 → codeOf "bandit" ["-r", ".", "-x", excludes] = 0 →
      security_run false excludes codeOf =
        [Event.run "pip_audit" [], Event.run "bandit" ["-r", ".", "-x", excludes],
         Event.echo "✅ devr security passed"]) := by
  refine ⟨?_, ?_, ?_, ?_, ?_, ?_, ?_⟩
  · by_cases hpa : codeOf "pip_audit" [] = 0 <;>
      by_cases hb : codeOf "bandit" ["-r", ".", "-x", excludes] = 0 <;>
        simp [security_run, hpa, hb]
  · intro hpa hb
    simp [security_run, hpa, hb]
    rfl
  · intro hpa
    simp [security_run, hpa]
  · intro hpa hb
    simp [security_run, hpa, hb]
  · intro hpa hb
    simp [security_run, hpa, hb]
    rfl
  · intro hpa hb
    simp [security_run, hpa, hb]
    rfl
  · intro hpa hb
    simp [security_run, hpa, hb]

/-- Witness for C8: with both tools failing and fail-fast disabled the
run reports both names and exits 1, and with only `bandit` failing it
reports just that name and still exits 1. -/
theorem security_aggregate_and_fail_fast_witness :
    security_run false "X" (fun _ _ => 1) =
      [Event.run "pip_audit" [], Event.run "bandit" ["-r", ".", "-x", "X"],
       Event.echo "Security checks failed: pip-audit, bandit", Event.exited 1] ∧
    security_run false "X" (fun m _ => if m = "bandit" then 1 else 0) =
      [Event.run "pip_audit" [], Event.run "bandit" ["-r", ".", "-x", "X"],
       Event.echo "Security checks failed: bandit", Event.exited 1] :=
  ⟨(security_aggregate_and_fail_fast "X" (fun _ _ => 1)).2.1 (by decide) (by decide),
   (security_aggregate_and_fail_fast "X"
      (fun m _ => if m = "bandit" then 1 else 0)).2.2.2.2.2.1 (by decide) (by decide)⟩

theorem boundInt_bounds (d lo hi p : Int) (h1 : lo ≤ d) (h2 : d ≤ hi) :
    lo ≤ boundInt d (some lo) (some hi) p ∧ boundInt d (some lo) (some hi) p ≤ hi := by
  unfold boundInt
  by_cases hlo : p < lo <;> by_cases hhi : hi < p <;>
    simp [Option.any, hlo, hhi] <;> omega

theorem parse_choice_default_or_mem (v : Option TomlVal) (d : String) (allowed : List String) :
    parse_choice v d allowed = d ∨ parse_choice v d allowed ∈ allowed := by
  match v with
  | none => exact Or.inl rfl
  | some (.vint n) => exact Or.inl rfl
  | some (.vbool b) => exact Or.inl rfl
  | some (.vfloat t) => exact Or.inl rfl
  | some .vfloatInf => exact Or.inl rfl
  | some .vfloatNan => exact Or.inl rfl
  | some .vother => exact Or.inl rfl
  | some (.vstr s) =>
    by_cases h : pyLower (pyStrip s) ∈ allowed
    · exact Or.inr (by simp [parse_choice, h])
    · exact Or.inl (by simp [parse_choice, h])

theorem parse_int_0_100_bounds (v : Option TomlVal) :
    0 ≤ parse_int v 85 (some 0) (some 100) ∧ parse_int v 85 (some 0) (some 100) ≤ 100 := by
  have hb := fun p => boundInt_bounds 85 0 100 p (by decide) (by decide)
  match v with
  | none => exact ⟨by decide, by decide⟩
  | some .vother => exact ⟨by decide, by decide⟩
  | some .vfloatInf => exact ⟨by decide, by decide⟩
  | some .vfloatNan => exact ⟨by decide, by decide⟩
  | some (.vbool b) => exact ⟨by norm_num [parse_int], by norm_num [parse_int]⟩
  | some (.vint n) => exact hb n
  | some (.vfloat t) => exact hb t
  | some (.vstr s) =>
    cases h : pyIntOfString s with
    | none => simp [parse_int, h]
    | some n => simpa [parse_int, h] using hb n

/-- Domain invariant of the loaded configuration on every raw input on
which `load_config` returns at all (an infinite coverage float instead
raises — see `load_config_overflow_bug`): each field is a valid member
of its domain or exactly the compiled-in default, and an unrecognised
formatter or type-checker string, an out-of-range integer or
finite-float coverage input, a boolean coverage input and a non-numeric
ASCII coverage string each resolve to the default (never the raw
value). -/
theorem load_config_domain_invariant (raw : Option RawDevr)
    (_hok : ∀ d, raw = some d → load_config_raises d = false) :
    ((load_config raw).formatter = "ruff" ∨ (load_config raw).formatter = "black") ∧
    ((load_config raw).typechecker = "mypy" ∨ (load_config raw).typechecker = "pyright") ∧
    (0 ≤ (load_config raw).coverage_min ∧ (load_config raw).coverage_min ≤ 100) ∧
    (load_config raw).venv_path ≠ "" ∧
    (∀ d, raw = some d →
      (∀ s, d.formatter = some (.vstr s) → pyLower (pyStrip s) ∉ ["ruff", "black"] →
        (load_config raw).formatter = "ruff") ∧
      (∀ s, d.typechecker = some (.vstr s) → pyLower (pyStrip s) ∉ ["mypy", "pyright"] →
        (load_config raw).typechecker = "mypy") ∧
      (∀ n, d.coverage_min = some (.vint n) → (n < 0 ∨ 100 < n) →
        (load_config raw).coverage_min = 85) ∧
      (∀ t, d.coverage_min = some (.vfloat t) → (t < 0 ∨ 100 < t) →
        (load_config raw).coverage_min = 85) ∧
      (∀ b, d.coverage_min = some (.vbool b) → (load_config raw).coverage_min = 85) ∧
      (∀ s, d.coverage_min = some (.vstr s) → (∀ c ∈ s.toList, c.toNat < 128) →
        pyIntOfString s = none → (load_config raw).coverage_min = 85) ∧
      (d.coverage_min = some .vother → (load_config raw).coverage_min = 85)) := by
  cases raw with
  | none =>
    exact ⟨Or.inl rfl, Or.inl rfl, ⟨by decide, by decide⟩, by decide, fun d h => nomatch h⟩
  | some d =>
    refine ⟨?_, ?_, ?_, ?_, ?_⟩
    · have h := parse_choice_default_or_mem d.formatter "ruff" ["ruff", "black"]
      simpa [load_config] using h
    · have h := parse_choice_default_or_mem d.typechecker "mypy" ["mypy", "pyright"]
      simpa [load_config] using h
    · simpa [load_config] using parse_int_0_100_bounds d.coverage_min
    · show parse_venv_path d.venv_path ".venv" ≠ ""
      match hv : d.venv_path with
      | none => decide
      | some (.vint n) => simp [parse_venv_path]
      | some (.vbool b) => simp [parse_venv_path]
      | some (.vfloat t) => simp [parse_venv_path]
      | some .vfloatInf => decide
      | some .vfloatNan => decide
      | some .vother => decide
      | some (.vstr s) =>
        by_cases h : pyStrip s = "" <;> simp [parse_venv_path, h]
    · rintro d2 ⟨rfl⟩
      refine ⟨?_, ?_, ?_, ?_, ?_, ?_, ?_⟩
      · intro s hs hmem
        simp [load_config, hs, parse_choice, hmem, defaultDevrConfig]
      · intro s hs hmem
        simp [load_config, hs, parse_choice, hmem, defaultDevrConfig]
      · intro n hn hrange
        rcases hrange with h | h <;>
          simp [load_config, hn, parse_int, boundInt, Option.any, h, defaultDevrConfig]
      · intro t htn hrange
        rcases hrange with h | h <;>
          simp [load_config, htn, parse_int, boundInt, Option.any, h, defaultDevrConfig]
      · intro b hb
        simp [load_config, hb, parse_int, defaultDevrConfig]
      · intro s hs _ hparse
        simp [load_config, hs, parse_int, hparse, defaultDevrConfig]
      · intro h
        simp [load_config, h, parse_int, defaultDevrConfig]

/-- Claim C9 (code bug): `load_config` is meant to resolve every raw
input to a valid value or the compiled-in default without ever erroring,
but on the raw input `coverage_min = inf` — a float TOML admits —
`int()` inside `_parse_int` raises `OverflowError`, which the
`except (TypeError, ValueError)` clause does not catch, so `load_config`
raises instead of resolving the field to the default 85.  A `nan`
coverage float is caught (`ValueError`) and resolves to 85, and an
ordinary out-of-domain table such as `C9raw` does not raise, so the
escape is specific to the infinite float. -/
theorem load_config_overflow_bug :
    load_config_raises C9infRaw = true ∧
    parse_int (some .vfloatNan) 85 (some 0) (some 100) = 85 ∧
    load_config_raises C9raw = false :=
  ⟨rfl, rfl, rfl⟩

/-- Claim C10: formatter and type-checker strings are recognised after
stripping surrounding whitespace and lowercasing, and the loaded
configuration carries the normalised lowercase choice. -/
theorem parse_choice_normalizes (d : RawDevr) (s t : String)
    (hf : d.formatter = some (.vstr s))
    (hsf : pyLower (pyStrip s) ∈ ["ruff", "black"])
    (htc : d.typechecker = some (.vstr t))
    (hst : pyLower (pyStrip t) ∈ ["mypy", "pyright"]) :
    (load_config (some d)).formatter = pyLower (pyStrip s) ∧
    (load_config (some d)).typechecker = pyLower (pyStrip t) := by
  constructor <;> simp [load_config, parse_choice, hf, htc, hsf, hst]

/-- Witness for C10: `" Black "` resolves to formatter `black` and
`"MyPy"` to type-checker `mypy`. -/
theorem parse_choice_normalizes_witness :
    (load_config (some C10raw)).formatter = "black" ∧
    (load_config (some C10raw)).typechecker = "mypy" := by
  have h := parse_choice_normalizes C10raw " Black " "MyPy" rfl (by decide) rfl (by decide)
  exact ⟨h.1.trans (by decide), h.2.trans (by decide)⟩

end Devr
